import Mathlib

/-!
# HappyTrashFlask authentication core: shallow embedding and verification

This file embeds the authentication blueprint of `src/apps/auth/__init__.py`
(the classes `CreateTokenResources` and `RefreshTokenResources`) and the
collaborators it calls, and proves properties of the embedded handlers.

Embedding conventions:
* Python dicts become association lists over a small JSON-like value type.
* The user directory (`Users.query`) becomes a `List User`; the SQLAlchemy
  query `Users.query.filter_by(email=e).first()` becomes `List.find?` on the
  email field, matching the submitted string exactly as the handler passes it.
* The credential verifier `sha256_crypt.verify` is an external collaborator;
  the handlers are parametric in a function `verify : String → String → Bool`.
* Time is a natural number of seconds; the token codec of `flask_jwt_extended`
  (`create_access_token`, `get_jwt_identity`, `get_jwt_claims`, `jwt_required`)
  is not part of this repository, so it is modelled from the Token
  Service contract in the spec (section 4.2): a token is a signed record of identity,
  claims and expiry; issuance stamps `now + TTL`; verification checks expiry.
-/

namespace HappyTrash

/-- Primitive JSON values appearing in marshaled user records and claims. -/
inductive Prim where
  | s : String → Prim
  | n : Nat → Prim
  | b : Bool → Prim
deriving DecidableEq, Repr

/-- Claims mapping: a Python dict of primitive values, as an association list. -/
abbrev Claims := List (String × Prim)

/-- Dict key lookup, `d[k]` (first binding wins, as in a Python dict). -/
def getKey (c : Claims) (k : String) : Option Prim :=
  match c with
  | [] => none
  | (k2, v) :: rest => if k2 == k then some v else getKey rest k

/-- Python `d.pop(k)`: the dict without key `k` (remaining bindings in order). -/
def popKey (k : String) : Claims → Claims
  | [] => []
  | (k2, v) :: rest => if k2 == k then popKey k rest else (k2, v) :: popKey k rest

/-- User record of the directory store (the `Users` model: id, name, email,
mobile phone, stored password hash, admin flag — the fields the seeding code in
`src/tests/__init__.py` constructs and the section 3 data model of the spec lists). -/
structure User where
  id : Nat
  name : String
  email : String
  mobile_phone : String
  password : String
  isAdmin : Bool
deriving DecidableEq, Repr

/-- Modelled from the spec: the token TTL. `flask_jwt_extended` configuration
is not under `src/`; the Token Service of the spec (section 4.2) requires a fixed
expiry horizon of 15 to 60 minutes. We fix 15 minutes (900 seconds). -/
def TTL : Nat := 900

/-- Modelled from the spec: a token of the Token Service (section 4.2) — an
opaque signed credential binding an identity string to a claims mapping, with
an expiry instant. Signature validity is implicit: a value of this type stands
for a token whose signature verifies (tokens that fail to decode are
represented as `none` where an `Option Token` is consumed). -/
structure Token where
  identity : String
  claims : Claims
  exp : Nat
deriving DecidableEq, Repr

/-- Modelled from the spec: `create_access_token(identity, user_claims)` of
`flask_jwt_extended` (not under `src/`), per the contract `issue(identity,
claims) -> token` of the spec: embeds identity and claims, stamps expiry
`now + TTL`. -/
def create_access_token (now : Nat) (identity : String) (user_claims : Claims) :
    Token :=
  ⟨identity, user_claims, now + TTL⟩

/-- Modelled from the spec: `get_jwt_claims()` of `flask_jwt_extended`
(not under `src/`) — the accessor `extractClaims(token) -> claims` of the spec,
projecting the claims embedded in the (already verified) token. -/
def get_jwt_claims (t : Token) : Claims := t.claims

/-- Modelled from the spec: `get_jwt_identity()` of `flask_jwt_extended`
(not under `src/`), projecting the identity embedded in the token. -/
def get_jwt_identity (t : Token) : String := t.identity

/-- Modelled from the spec: temporal validity of a token — its expiry has not
passed (signature validity is carried by the `Token` type itself). -/
def tokenValid (now : Nat) (t : Token) : Bool := now < t.exp

/-- Splits a character list on a separator; the resulting segments never
contain the separator, and a list with no separator yields one segment. -/
def splitOnChar (sep : Char) : List Char → List (List Char)
  | [] => [[]]
  | c :: rest =>
    match splitOnChar sep rest with
    | [] => if c == sep then [[], []] else [[c]]
    | seg :: segs => if c == sep then [] :: seg :: segs else (c :: seg) :: segs

/-- Modelled from the spec: `Users.isEmailAddressValid` lives in
`apps/users/model.py`, which is not under `src/`; the spec says it checks
standard email-address grammar. Modelled as: exactly one `@`, a nonempty local
part, and a domain of at least two nonempty dot-separated labels. -/
def isEmailAddressValid (e : String) : Bool :=
  match splitOnChar '@' e.toList with
  | [lp, domain] =>
    (!(lp.isEmpty)) &&
      (let labels := splitOnChar '.' domain
       decide (2 ≤ labels.length) && labels.all (fun l => !(l.isEmpty)))
  | _ => false

/-- Modelled from the spec: `marshal(user, Users.login_response_field)` — the
field list lives in `apps/users/model.py`, which is not under `src/`. The
handler reads the `password` entry of `user_data` and pops it before minting, so
the marshaled dict carries the full record including the password hash; the
section 3 of the spec lists the user fields. -/
def marshal_login_response (u : User) : Claims :=
  [("id", Prim.n u.id), ("name", Prim.s u.name), ("email", Prim.s u.email),
   ("mobile_phone", Prim.s u.mobile_phone), ("password", Prim.s u.password),
   ("isAdmin", Prim.b u.isAdmin)]

/-- JSON values appearing in response bodies: primitives, freshly minted
tokens, and one level of nested object (the body mapping `claims` to a dict). -/
inductive JVal where
  | p : Prim → JVal
  | tok : Token → JVal
  | obj : Claims → JVal
deriving DecidableEq, Repr

/-- An HTTP response as the handlers return it: JSON body (a dict), status
code, and the explicitly returned headers. -/
structure Response where
  body : List (String × JVal)
  status : Nat
  headers : List (String × String)
deriving DecidableEq, Repr

/-- The explicit header dict mapping `Content-Type` to `application/json` that
the handlers attach to their returns. -/
def jsonHeader : List (String × String) := [("Content-Type", "application/json")]

/-- The body returned verbatim by both 401 branches of the login handler:
`status` carries the literal misspelt UNATHORIZED of the source, and `message`
carries the generic invalid-email-or-password text. -/
def unauthorizedBody : List (String × JVal) :=
  [("status", JVal.p (Prim.s "UNATHORIZED")),
   ("message", JVal.p (Prim.s "invalid email or password"))]

/-- `CreateTokenResources.post` — the login handler. Validates the email
format, looks the submitted email up in the store, verifies the password
against the `password` entry of the marshaled record, pops `password` from the
marshaled copy and mints a token. Returns the response paired with the
directory store as it stands after the request (the handler only reads the
store, so every branch carries it through). -/
def createToken_post (verify : String → String → Bool) (store : List User)
    (now : Nat) (email password : String) : Response × List User :=
  if !(isEmailAddressValid email) then
    (⟨[("message", JVal.p (Prim.s "Invalid email format!"))], 400, jsonHeader⟩,
     store)
  else
    match store.find? (fun u => u.email == email) with
    | none => (⟨unauthorizedBody, 401, jsonHeader⟩, store)
    | some user =>
      let user_data := marshal_login_response user
      let stored_hash :=
        match getKey user_data "password" with
        | some (Prim.s h) => h
        | _ => ""
      if !(verify password stored_hash) then
        (⟨unauthorizedBody, 401, jsonHeader⟩, store)
      else
        let user_data := popKey "password" user_data
        let token := create_access_token now email user_data
        (⟨[("status", JVal.p (Prim.s "OK")), ("token", JVal.tok token)], 200,
          jsonHeader⟩, store)

/-- The login response alone (first component of `createToken_post`). -/
def createToken_post_response (verify : String → String → Bool)
    (store : List User) (now : Nat) (email password : String) : Response :=
  (createToken_post verify store now email password).1

/-- `CreateTokenResources.options` — the CORS preflight on `/v1/auth`. The
source returns the dict mapping `Status` to `OK`, with code 200 and no
explicit header dict. -/
def createToken_options : Response :=
  ⟨[("Status", JVal.p (Prim.s "OK"))], 200, []⟩

/-- `RefreshTokenResources.options` — the CORS preflight on
`/v1/auth/refresh`, which does attach the explicit JSON content-type header. -/
def refreshToken_options : Response :=
  ⟨[("Status", JVal.p (Prim.s "OK"))], 200, jsonHeader⟩

/-- Modelled from the spec: the `flask_jwt_extended` 401 response when no
decodable token accompanies the request. -/
def missingTokenResponse : Response :=
  ⟨[("msg", JVal.p (Prim.s "Missing Authorization Header"))], 401, jsonHeader⟩

/-- Modelled from the spec: the `flask_jwt_extended` 401 response when the
presented token has expired. -/
def expiredTokenResponse : Response :=
  ⟨[("msg", JVal.p (Prim.s "Token has expired"))], 401, jsonHeader⟩

/-- Modelled from the spec: the `@jwt_required` decorator of
`flask_jwt_extended` (not under `src/`), per the section 4.4
precondition of the spec: the handler body runs only when a currently valid token is
presented; otherwise the middleware answers 401 before the handler. An
absent, malformed or badly signed token never decodes and is `none`; an
expired one decodes but fails the expiry check. -/
def jwt_required_wrap (now : Nat) (presented : Option Token)
    (handler : Token → Response) : Response :=
  match presented with
  | none => missingTokenResponse
  | some t => if tokenValid now t then handler t else expiredTokenResponse

/-- Body of `CreateTokenResources.get` (the `whoami` query): projects the
claims of the presented token under a `claims` key. -/
def createToken_get_body (t : Token) : Response :=
  ⟨[("claims", JVal.obj (get_jwt_claims t))], 200, jsonHeader⟩

/-- `CreateTokenResources.get` as routed: `@jwt_required` around the body. -/
def createToken_get (now : Nat) (presented : Option Token) : Response :=
  jwt_required_wrap now presented createToken_get_body

/-- Body of `RefreshTokenResources.post`: reads identity and claims from the
presented token and mints a fresh token from them — no directory argument at
all, mirroring the source, which touches no model or query here. -/
def refreshToken_post_body (now : Nat) (t : Token) : Response :=
  let current_user := get_jwt_identity t
  let current_claim := get_jwt_claims t
  let token := create_access_token now current_user current_claim
  ⟨[("status", JVal.p (Prim.s "OK")), ("token", JVal.tok token)], 200,
   jsonHeader⟩

/-- `RefreshTokenResources.post` as routed: `@jwt_required` around the body. -/
def refreshToken_post (now : Nat) (presented : Option Token) : Response :=
  jwt_required_wrap now presented (refreshToken_post_body now)

/-- Modelled from the spec: the flask_restful dispatch of a resource return
value (`Api.make_response`, with the default and only representation
`application/json`) — the HTTP layer is an external collaborator not under
`src/`; the spec says the surface speaks JSON with
`Content-Type: application/json`. The framework serializes the body as JSON
into a response whose mimetype is `application/json` and then extends it with
the explicit header dict of the handler, so the dispatched headers are the
default content-type followed by whatever the handler returned. -/
def make_response (r : Response) : Response :=
  ⟨r.body, r.status, ("Content-Type", "application/json") :: r.headers⟩

/-- A user as the test seeding creates one, for concrete evaluations. -/
def demoUser : User :=
  ⟨1, "user", "user@user.com", "081122112211", "sha256hash-of-user", false⟩

/-- A one-user directory store, for concrete evaluations. -/
def demoStore : List User := [demoUser]

/-- A concrete stand-in credential verifier for witnesses: accepts exactly
when re-hashing the plaintext (modelled by prefixing) matches the stored
hash, so `demoVerify "user" demoUser.password = true`. -/
def demoVerify (plaintext storedHash : String) : Bool :=
  ("sha256hash-of-" ++ plaintext) == storedHash

/-- The admin user the test seeding creates, for concrete evaluations. -/
def adminUser : User :=
  ⟨2, "admin", "admin@admin.com", "0811221122112", "sha256hash-of-admin", true⟩

/-- Tokens issued by the auth core: minted in the response of the login
handler, or minted by the refresh handler from a token the core itself
previously issued. -/
inductive IssuedByCore : Token → Prop where
  | login (verify : String → String → Bool) (store : List User) (now : Nat)
      (email password : String) (t : Token)
      (h : ("token", JVal.tok t) ∈
        (createToken_post verify store now email password).1.body) :
      IssuedByCore t
  | refresh (now : Nat) (prev t : Token) (hprev : IssuedByCore prev)
      (h : ("token", JVal.tok t) ∈ (refreshToken_post_body now prev).body) :
      IssuedByCore t

/-! ## Dictionary lemmas -/

/-- Marshaling a user record stores its password hash under `password`. -/
theorem getKey_marshal_password (u : User) :
    getKey (marshal_login_response u) "password" = some (Prim.s u.password) :=
  rfl

/-- Popping a key removes it: looking it up afterwards yields nothing. -/
theorem getKey_popKey (k : String) (c : Claims) :
    getKey (popKey k c) k = none := by
  induction c with
  | nil => rfl
  | cons hd tl ih =>
    obtain ⟨k2, v⟩ := hd
    by_cases h : (k2 == k) = true
    · simp [popKey, h, ih]
    · simp [popKey, getKey, h, ih]

/-! ## Branch-shape lemmas for the login handler -/

/-- Login with a syntactically invalid email: the 400 branch. -/
theorem login_invalid_email_eq (verify : String → String → Bool)
    (s : List User) (now : Nat) (email pw : String)
    (hv : isEmailAddressValid email = false) :
    createToken_post verify s now email pw =
      (⟨[("message", JVal.p (Prim.s "Invalid email format!"))], 400,
        jsonHeader⟩, s) := by
  simp [createToken_post, hv]

/-- Login with a valid email not present in the store: the first 401 branch. -/
theorem login_no_user_eq (verify : String → String → Bool)
    (s : List User) (now : Nat) (email pw : String)
    (hv : isEmailAddressValid email = true)
    (hf : s.find? (fun x => x.email == email) = none) :
    createToken_post verify s now email pw =
      (⟨unauthorizedBody, 401, jsonHeader⟩, s) := by
  simp [createToken_post, hv, hf]

/-- Login with a registered email but failing password verification: the
second 401 branch, byte-identical to the first. -/
theorem login_bad_password_eq (verify : String → String → Bool)
    (s : List User) (now : Nat) (email pw : String) (u : User)
    (hv : isEmailAddressValid email = true)
    (hf : s.find? (fun x => x.email == email) = some u)
    (hw : verify pw u.password = false) :
    createToken_post verify s now email pw =
      (⟨unauthorizedBody, 401, jsonHeader⟩, s) := by
  simp [createToken_post, hv, hf, getKey_marshal_password, hw]

/-- Successful login: the 200 branch, minting a token for the submitted email
whose claims are the marshaled record with `password` popped. -/
theorem login_success_eq (verify : String → String → Bool)
    (s : List User) (now : Nat) (email pw : String) (u : User)
    (hv : isEmailAddressValid email = true)
    (hf : s.find? (fun x => x.email == email) = some u)
    (hw : verify pw u.password = true) :
    createToken_post verify s now email pw =
      (⟨[("status", JVal.p (Prim.s "OK")),
         ("token", JVal.tok (create_access_token now email
           (popKey "password" (marshal_login_response u))))], 200,
        jsonHeader⟩, s) := by
  simp [createToken_post, hv, hf, getKey_marshal_password, hw]

/-- Any token occurring in a login response carries no `password` claim. -/
theorem token_in_login_no_password (verify : String → String → Bool)
    (s : List User) (now : Nat) (email pw : String) (t : Token)
    (h : ("token", JVal.tok t) ∈
      (createToken_post verify s now email pw).1.body) :
    getKey (get_jwt_claims t) "password" = none := by
  by_cases hv : isEmailAddressValid email = true
  · cases hf : s.find? (fun x => x.email == email) with
    | none =>
      rw [login_no_user_eq verify s now email pw hv hf] at h
      simp [unauthorizedBody] at h
    | some u =>
      by_cases hw : verify pw u.password = true
      · rw [login_success_eq verify s now email pw u hv hf hw] at h
        simp at h
        subst h
        exact getKey_popKey _ _
      · rw [login_bad_password_eq verify s now email pw u hv hf
          (by simpa using hw)] at h
        simp [unauthorizedBody] at h
  · rw [login_invalid_email_eq verify s now email pw (by simpa using hv)] at h
    simp at h

/-- C1: every token issued by the auth core — whether by the login POST
handler after successful credential verification or by the refresh POST
handler — embeds a claims mapping with no `password` key; the stored password
hash is never embedded in any issued token. -/
theorem issued_token_never_embeds_password (t : Token) (h : IssuedByCore t) :
    getKey (get_jwt_claims t) "password" = none := by
  induction h with
  | login verify store now email password t hmem =>
    exact token_in_login_no_password verify store now email password t hmem
  | refresh now prev t hprev hmem ih =>
    simp [refreshToken_post_body, create_access_token, get_jwt_identity,
      get_jwt_claims] at hmem
    subst hmem
    simpa [get_jwt_claims] using ih

/-- Witness for C1: a token minted by a concrete successful demo login has no
`password` claim. -/
theorem issued_token_never_embeds_password_witness :
    getKey (get_jwt_claims (create_access_token 0 "user@user.com"
      (popKey "password" (marshal_login_response demoUser)))) "password" =
      none :=
  issued_token_never_embeds_password _
    (IssuedByCore.login demoVerify demoStore 0 "user@user.com" "user" _
      (by decide))

/-- C2: for a login whose email passes the format check, the run against a
store with no user under that email and the run against a store whose user
fails password verification produce identical responses: status 401 and the
same generic invalid-email-or-password body. -/
theorem login_enumeration_resistant (verify : String → String → Bool)
    (s1 s2 : List User) (now1 now2 : Nat) (email pw1 pw2 : String) (u : User)
    (hv : isEmailAddressValid email = true)
    (h1 : s1.find? (fun x => x.email == email) = none)
    (h2 : s2.find? (fun x => x.email == email) = some u)
    (hw : verify pw2 u.password = false) :
    createToken_post_response verify s1 now1 email pw1 =
      createToken_post_response verify s2 now2 email pw2 ∧
    createToken_post_response verify s1 now1 email pw1 =
      ⟨unauthorizedBody, 401, jsonHeader⟩ ∧
    ("message", JVal.p (Prim.s "invalid email or password")) ∈
      (createToken_post_response verify s1 now1 email pw1).body := by
  have e1 := login_no_user_eq verify s1 now1 email pw1 hv h1
  have e2 := login_bad_password_eq verify s2 now2 email pw2 u hv h2 hw
  refine ⟨?_, ?_, ?_⟩ <;>
    simp [createToken_post_response, e1, e2, unauthorizedBody]

/-- Witness for C2: a concrete unregistered-email run and a concrete
wrong-password run against the seeded user are indistinguishable. -/
theorem login_enumeration_resistant_witness :
    createToken_post_response demoVerify [] 1 "user@user.com" "abc" =
      createToken_post_response demoVerify demoStore 2 "user@user.com"
        "wrong" :=
  (login_enumeration_resistant demoVerify [] demoStore 1 2 "user@user.com"
    "abc" "wrong" demoUser (by decide) (by decide) (by decide)
    (by decide)).1

/-- C3: a login with a well-formed email, a user registered under it and a
password that verifies returns 200 with a status-OK body carrying a token
whose identity is the submitted email and whose claims are the marshaled user
record with the password field removed. -/
theorem login_success_issues_token (verify : String → String → Bool)
    (s : List User) (now : Nat) (email pw : String) (u : User)
    (hv : isEmailAddressValid email = true)
    (hf : s.find? (fun x => x.email == email) = some u)
    (hw : verify pw u.password = true) :
    createToken_post_response verify s now email pw =
      ⟨[("status", JVal.p (Prim.s "OK")),
        ("token", JVal.tok
          ⟨email, popKey "password" (marshal_login_response u), now + TTL⟩)],
       200, jsonHeader⟩ := by
  simp [createToken_post_response,
    login_success_eq verify s now email pw u hv hf hw, create_access_token]

/-- Witness for C3: the seeded demo user logs in successfully with the
expected concrete response. -/
theorem login_success_issues_token_witness :
    createToken_post_response demoVerify demoStore 0 "user@user.com" "user" =
      ⟨[("status", JVal.p (Prim.s "OK")),
        ("token", JVal.tok
          ⟨"user@user.com",
           popKey "password" (marshal_login_response demoUser), 0 + TTL⟩)],
       200, jsonHeader⟩ :=
  login_success_issues_token demoVerify demoStore 0 "user@user.com" "user"
    demoUser (by decide) (by decide) (by decide)

/-- C4: round-trip — extracting the claims from a token produced by issuance
returns exactly the original claims mapping, in particular for every claims
mapping without a `password` field. -/
theorem extractClaims_issue_roundtrip (now : Nat) (identity : String)
    (claims : Claims) (h : getKey claims "password" = none) :
    get_jwt_claims (create_access_token now identity claims) = claims := rfl

/-- Witness for C4: the round-trip at a concrete password-free claims dict. -/
theorem extractClaims_issue_roundtrip_witness :
    get_jwt_claims (create_access_token 0 "user@user.com"
      [("id", Prim.n 1), ("email", Prim.s "user@user.com")]) =
      [("id", Prim.n 1), ("email", Prim.s "user@user.com")] :=
  extractClaims_issue_roundtrip 0 "user@user.com"
    [("id", Prim.n 1), ("email", Prim.s "user@user.com")] (by decide)

/-- C5 counterexample: a token issued at instant 5 is still valid at
instant 5, and refreshing it right then mints a token with the very same
expiry (and in fact the very same token), so the expiry of the refreshed
token is not strictly later than the expiry of the presented one. -/
theorem refresh_same_instant_counterexample :
    tokenValid 5 (create_access_token 5 "user@user.com" []) = true ∧
    refreshToken_post 5 (some (create_access_token 5 "user@user.com" [])) =
      ⟨[("status", JVal.p (Prim.s "OK")),
        ("token", JVal.tok (create_access_token 5 "user@user.com" []))], 200,
       jsonHeader⟩ ∧
    ¬ (create_access_token 5 "user@user.com" []).exp <
        (create_access_token 5 "user@user.com" []).exp := by
  refine ⟨by decide, by decide, by decide⟩

/-- C5 (amended): refreshing a valid token issued at instant `t0` at a later
or equal instant `now` mints — with no directory access: the refresh handler
takes no store at all — a token with the same identity and claims and expiry
`now + TTL`; that expiry is never earlier than the presented expiry, and is
strictly later exactly when the refresh occurs strictly after issuance. -/
theorem refresh_reissues_claims_with_renewed_expiry (t0 now : Nat)
    (identity : String) (c : Claims) (hle : t0 ≤ now)
    (hvalid : tokenValid now (create_access_token t0 identity c) = true) :
    refreshToken_post now (some (create_access_token t0 identity c)) =
      ⟨[("status", JVal.p (Prim.s "OK")),
        ("token", JVal.tok (create_access_token now identity c))], 200,
       jsonHeader⟩ ∧
    (create_access_token t0 identity c).exp ≤
      (create_access_token now identity c).exp ∧
    (t0 < now →
      (create_access_token t0 identity c).exp <
        (create_access_token now identity c).exp) := by
  refine ⟨?_, ?_, ?_⟩
  · simp only [create_access_token] at hvalid
    simp [refreshToken_post, jwt_required_wrap, hvalid,
      refreshToken_post_body, get_jwt_identity, get_jwt_claims,
      create_access_token]
  · simpa [create_access_token] using Nat.add_le_add_right hle TTL
  · intro hlt
    simpa [create_access_token] using Nat.add_lt_add_right hlt TTL

/-- Witness for the amended C5: a token issued at instant 0 and refreshed at
instant 3 keeps identity and claims and gains a strictly later expiry. -/
theorem refresh_reissues_claims_with_renewed_expiry_witness :
    refreshToken_post 3 (some (create_access_token 0 "user@user.com" [])) =
      ⟨[("status", JVal.p (Prim.s "OK")),
        ("token", JVal.tok (create_access_token 3 "user@user.com" []))], 200,
       jsonHeader⟩ ∧
    (create_access_token 0 "user@user.com" []).exp <
      (create_access_token 3 "user@user.com" []).exp :=
  ⟨(refresh_reissues_claims_with_renewed_expiry 0 3 "user@user.com" []
      (by decide) (by decide)).1,
   (refresh_reissues_claims_with_renewed_expiry 0 3 "user@user.com" []
      (by decide) (by decide)).2.2 (by decide)⟩

/-- C6: a login whose email fails the syntactic check yields 400 with the
invalid-format message, whatever the password, and the response does not
depend on the directory store, the credential verifier, the password or the
instant — neither collaborator is consulted. -/
theorem login_invalid_email_rejected (verify1 verify2 : String → String → Bool)
    (s1 s2 : List User) (now1 now2 : Nat) (email pw1 pw2 : String)
    (h : isEmailAddressValid email = false) :
    createToken_post_response verify1 s1 now1 email pw1 =
      ⟨[("message", JVal.p (Prim.s "Invalid email format!"))], 400,
       jsonHeader⟩ ∧
    createToken_post_response verify1 s1 now1 email pw1 =
      createToken_post_response verify2 s2 now2 email pw2 := by
  constructor <;>
    simp [createToken_post_response,
      login_invalid_email_eq verify1 s1 now1 email pw1 h,
      login_invalid_email_eq verify2 s2 now2 email pw2 h]

/-- Witness for C6: a concrete login with a malformed email is rejected with
the 400 response. -/
theorem login_invalid_email_rejected_witness :
    createToken_post_response demoVerify demoStore 0 "notanemail" "user" =
      ⟨[("message", JVal.p (Prim.s "Invalid email format!"))], 400,
       jsonHeader⟩ :=
  (login_invalid_email_rejected demoVerify (fun _ _ => false) demoStore [] 0
    7 "notanemail" "user" "other" (by decide)).1

/-- C7 counterexample: the directory lookup of the login handler uses the
submitted email verbatim. The store holds the seeded user under the
lower-case email; the upper-cased variant passes the format check yet gets
the generic 401, while the exact email logs in with 200 — two requests
differing only in letter case do not resolve to the same user record. -/
theorem login_lookup_case_counterexample :
    demoUser.email = "user@user.com" ∧ demoUser ∈ demoStore ∧
    isEmailAddressValid "USER@user.com" = true ∧
    (createToken_post_response demoVerify demoStore 0 "user@user.com"
      "user").status = 200 ∧
    (createToken_post_response demoVerify demoStore 0 "USER@user.com"
      "user").status = 401 ∧
    (createToken_post_response demoVerify demoStore 0 "USER@user.com"
      "user").body = unauthorizedBody := by
  refine ⟨by decide, by decide, by decide, by decide, by decide, by decide⟩

/-- C7 (amended): the directory lookup is performed on the submitted email
exactly as given, with no case normalization: the login response depends on
the store only through the exact-match lookup of the submitted string, so two
stores agreeing on that lookup are indistinguishable, while requests whose
emails differ only in letter case may resolve to different records. -/
theorem login_lookup_uses_submitted_email (verify : String → String → Bool)
    (s1 s2 : List User) (now : Nat) (email pw : String)
    (h : s1.find? (fun x => x.email == email) =
      s2.find? (fun x => x.email == email)) :
    createToken_post_response verify s1 now email pw =
      createToken_post_response verify s2 now email pw := by
  by_cases hv : isEmailAddressValid email = true
  · cases hfind : s2.find? (fun x => x.email == email) with
    | none =>
      simp [createToken_post_response,
        login_no_user_eq verify s1 now email pw hv (h.trans hfind),
        login_no_user_eq verify s2 now email pw hv hfind]
    | some u =>
      by_cases hw : verify pw u.password = true
      · simp [createToken_post_response,
          login_success_eq verify s1 now email pw u hv (h.trans hfind) hw,
          login_success_eq verify s2 now email pw u hv hfind hw]
      · simp [createToken_post_response,
          login_bad_password_eq verify s1 now email pw u hv (h.trans hfind)
            (by simpa using hw),
          login_bad_password_eq verify s2 now email pw u hv hfind
            (by simpa using hw)]
  · have hv2 : isEmailAddressValid email = false := by simpa using hv
    simp [createToken_post_response,
      login_invalid_email_eq verify s1 now email pw hv2,
      login_invalid_email_eq verify s2 now email pw hv2]

/-- Witness for the amended C7: adding an unrelated admin record leaves the
login of the seeded user unchanged, the exact-match lookup being equal. -/
theorem login_lookup_uses_submitted_email_witness :
    createToken_post_response demoVerify demoStore 0 "user@user.com" "user" =
      createToken_post_response demoVerify [demoUser, adminUser] 0
        "user@user.com" "user" :=
  login_lookup_uses_submitted_email demoVerify demoStore [demoUser, adminUser]
    0 "user@user.com" "user" (by decide)

/-- C8: the bodies of GET `/v1/auth` and POST `/v1/auth/refresh` run exactly
when a valid token is presented: with a valid token the whoami query returns
200 with the claims carried in the token and the refresh route runs its body,
while an absent (or undecodable) or expired token yields 401 on both. -/
theorem token_gate_and_whoami (now : Nat) (presented : Option Token) :
    (∀ t, presented = some t → tokenValid now t = true →
      createToken_get now presented =
        ⟨[("claims", JVal.obj (get_jwt_claims t))], 200, jsonHeader⟩ ∧
      refreshToken_post now presented = refreshToken_post_body now t) ∧
    ((presented = none ∨
        ∃ t, presented = some t ∧ tokenValid now t = false) →
      (createToken_get now presented).status = 401 ∧
      (refreshToken_post now presented).status = 401) := by
  constructor
  · rintro t rfl hv
    constructor <;>
      simp [createToken_get, refreshToken_post, jwt_required_wrap, hv,
        createToken_get_body]
  · rintro (rfl | ⟨t, rfl, hv⟩)
    · exact ⟨rfl, rfl⟩
    · constructor <;>
        simp [createToken_get, refreshToken_post, jwt_required_wrap, hv,
          expiredTokenResponse]

/-- Witness for C8: a fresh token passes the gate and an absent token is
rejected with 401, at concrete instants. -/
theorem token_gate_and_whoami_witness :
    createToken_get 0 (some (create_access_token 0 "user@user.com" [])) =
      ⟨[("claims", JVal.obj [])], 200, jsonHeader⟩ ∧
    (createToken_get 0 none).status = 401 :=
  ⟨((token_gate_and_whoami 0
      (some (create_access_token 0 "user@user.com" []))).1
      (create_access_token 0 "user@user.com" []) rfl (by decide)).1,
   ((token_gate_and_whoami 0 none).2 (Or.inl rfl)).1⟩

/-- C9: every response produced by the auth HTTP surface — the OPTIONS
preflights on `/v1/auth` and `/v1/auth/refresh`, login with any inputs, the
whoami query and refresh with any presented token — is JSON and, as
dispatched by the framework, carries the header
`Content-Type: application/json` (the explicit header dicts some handlers
attach are behaviorally redundant with the dispatch default). -/
theorem surface_responses_are_json (verify : String → String → Bool)
    (s : List User) (now : Nat) (email pw : String)
    (presented : Option Token) :
    ("Content-Type", "application/json") ∈
      (make_response createToken_options).headers ∧
    ("Content-Type", "application/json") ∈
      (make_response refreshToken_options).headers ∧
    ("Content-Type", "application/json") ∈
      (make_response
        (createToken_post_response verify s now email pw)).headers ∧
    ("Content-Type", "application/json") ∈
      (make_response (createToken_get now presented)).headers ∧
    ("Content-Type", "application/json") ∈
      (make_response (refreshToken_post now presented)).headers := by
  refine ⟨?_, ?_, ?_, ?_, ?_⟩ <;> simp [make_response]

/-- C10: the login handler leaves the directory store unchanged — it only
reads it — and the password removal before minting happens on the marshaled
copy, never on the stored record: every stored record survives with its
password hash still retrievable, while the popped copy lacks it. -/
theorem login_preserves_directory (verify : String → String → Bool)
    (s : List User) (now : Nat) (email pw : String) :
    (createToken_post verify s now email pw).2 = s ∧
    (∀ u, u ∈ s → u ∈ (createToken_post verify s now email pw).2 ∧
      getKey (marshal_login_response u) "password" = some (Prim.s u.password) ∧
      getKey (popKey "password" (marshal_login_response u)) "password" =
        none) := by
  have h2 : (createToken_post verify s now email pw).2 = s := by
    by_cases hv : isEmailAddressValid email = true
    · cases hf : s.find? (fun x => x.email == email) with
      | none => simp [login_no_user_eq verify s now email pw hv hf]
      | some u =>
        by_cases hw : verify pw u.password = true
        · simp [login_success_eq verify s now email pw u hv hf hw]
        · simp [login_bad_password_eq verify s now email pw u hv hf
            (by simpa using hw)]
    · simp [login_invalid_email_eq verify s now email pw (by simpa using hv)]
  refine ⟨h2, fun u hu =>
    ⟨?_, getKey_marshal_password u, getKey_popKey _ _⟩⟩
  rw [h2]
  exact hu

/-- Witness for C10: the concrete successful demo login hands back the store
as it was, with the seeded user still present. -/
theorem login_preserves_directory_witness :
    (createToken_post demoVerify demoStore 0 "user@user.com" "user").2 =
      demoStore ∧
    demoUser ∈ (createToken_post demoVerify demoStore 0 "user@user.com"
      "user").2 :=
  ⟨(login_preserves_directory demoVerify demoStore 0 "user@user.com"
      "user").1,
   ((login_preserves_directory demoVerify demoStore 0 "user@user.com"
      "user").2 demoUser (by decide)).1⟩

end HappyTrash
